import Mathlib

/-!
Verification of the COLMAP incremental-mapper specification against the
repository's code. The first part embeds `Rig::AddRefSensor` and
`Rig::AddSensor` from `src/colmap/sensor/rig.cc`; the second part models the
`IncrementalMapper` bookkeeping described by `src/colmap/sfm/incremental_mapper.h`
and the specification.

Conventions of the embedding:
- `THROW_CHECK` failures are modelled by returning the pre-call state paired
  with `some errorMessage`; a successful call returns the new state paired
  with `none`. Returning the pre-call state on error mirrors C++ exception
  semantics where the throw happens before any mutation on that path.
- The C++ sentinel `kInvalidSensorId` (the default value of `ref_sensor_id_`)
  is modelled by `Option sensor_t` with `none` standing for the sentinel, so
  `ref_sensor_id_ == kInvalidSensorId` becomes `ref_sensor_id_ = none`.
- Machine reals (`double`) that the modelled operations only ever compare
  against thresholds are embedded as rationals `ℚ`.
-/

namespace Colmap

/-- Sensor identifier `sensor_t`: a sensor type tag together with a numeric id,
as printed by `rig.cc` (`sensor_id.type`, `sensor_id.id`). -/
structure sensor_t where
  type : Nat
  id : Nat
deriving DecidableEq, Repr

/-- Rigid 3D pose `Rigid3d` (rotation quaternion and translation). The rig
bookkeeping operations store poses but never inspect their components, so the
numeric fields are embedded as rationals. -/
structure Rigid3d where
  rotation : ℚ × ℚ × ℚ × ℚ
  translation : ℚ × ℚ × ℚ
deriving DecidableEq

/-- The `Rig` state from `rig.h`/`rig.cc`: the reference sensor id
(`none` models `kInvalidSensorId`, the default) and the map from the other
sensor ids to their optional sensor-from-rig poses, embedded as an association
list in insertion order. -/
structure Rig where
  ref_sensor_id_ : Option sensor_t := none
  sensors_from_rig_ : List (sensor_t × Option Rigid3d) := []
deriving DecidableEq

/-- A freshly constructed rig: no reference sensor, no other sensors. -/
def Rig.empty : Rig := {}

/-- Modelled from the spec: the inline accessor `Rig::NumSensors` of the
missing header `rig.h`. Per the spec a rig is "a named collection of
rigidly-mounted sensors; one sensor is designated reference", so the sensor
count is the number of non-reference sensors plus one when the reference
sensor has been set. -/
def Rig.NumSensors (r : Rig) : Nat :=
  r.sensors_from_rig_.length + (if r.ref_sensor_id_.isSome then 1 else 0)

/-- Modelled from the spec: the inline accessor `Rig::HasSensor` of the
missing header `rig.h`. Per the spec "no sensor id may be added twice", a rig
has a sensor id iff it is the reference sensor id or a key of the
sensor-from-rig map. -/
def Rig.HasSensor (r : Rig) (sensor_id : sensor_t) : Bool :=
  r.ref_sensor_id_ = some sensor_id ||
    r.sensors_from_rig_.any (fun p => p.1 = sensor_id)

/-- `Rig::AddRefSensor` from `rig.cc`: checks that the reference sensor is not
yet set (`ref_sensor_id_ == kInvalidSensorId`), then records it. -/
def Rig.AddRefSensor (r : Rig) (ref_sensor_id : sensor_t) : Rig × Option String :=
  if r.ref_sensor_id_ = none then
    ({ r with ref_sensor_id_ := some ref_sensor_id }, none)
  else
    (r, some "Reference sensor already set")

/-- `Rig::AddSensor` from `rig.cc`: checks `NumSensors() >= 1` (the reference
sensor must have been added first), then that the sensor id is not already
present, then inserts the sensor with its optional pose. -/
def Rig.AddSensor (r : Rig) (sensor_id : sensor_t)
    (sensor_from_rig : Option Rigid3d) : Rig × Option String :=
  if r.NumSensors < 1 then
    (r, some "The reference sensor needs to be added first before other sensors.")
  else if r.HasSensor sensor_id then
    (r, some "Sensor is inserted twice into the rig")
  else
    ({ r with sensors_from_rig_ := r.sensors_from_rig_ ++ [(sensor_id, sensor_from_rig)] },
      none)

/-- Rig states reachable from a freshly constructed rig through the public
mutators `AddRefSensor` and `AddSensor` (failed calls leave the state
unchanged, so only successful calls matter). -/
inductive Rig.Reachable : Rig → Prop
  | empty : Rig.Reachable Rig.empty
  | addRef (r : Rig) (i : sensor_t) :
      Rig.Reachable r → (r.AddRefSensor i).2 = none →
      Rig.Reachable (r.AddRefSensor i).1
  | addSensor (r : Rig) (i : sensor_t) (p : Option Rigid3d) :
      Rig.Reachable r → (r.AddSensor i p).2 = none →
      Rig.Reachable (r.AddSensor i p).1

/-! The `IncrementalMapper` bookkeeping. The repository provides only the
declarations (`incremental_mapper.h`); the definitions live in the missing
`incremental_mapper.cc`, so the operations below are modelled from the
specification's description of them. Image and frame ids are `Nat`. -/

/-- Image identifier `image_t`. -/
abbrev image_t := Nat

/-- Modelled from the spec: the slice of `RegistrationStatistics` that drives
next-image selection, namely the per-image `num_reg_trials` counters ("Number
of trials to register image in current reconstruction") together with the set
of images already registered in the current reconstruction. -/
structure RegTrialsState where
  num_reg_trials : image_t → Nat
  registered_images : List image_t

/-- Modelled from the spec: the bookkeeping effect of one `RegisterNextImage`
attempt. "On success, updates the scene graph ... (increments trial and
registration counters) ... On failure, increments the image's trial counter
only." In both cases the image's trial counter grows by one; on success the
image additionally becomes registered. -/
def RegisterNextImageAttempt (s : RegTrialsState) (img : image_t)
    (success : Bool) : RegTrialsState :=
  { num_reg_trials := fun j =>
      if j = img then s.num_reg_trials j + 1 else s.num_reg_trials j,
    registered_images :=
      if success then img :: s.registered_images else s.registered_images }

/-- Modelled from the spec: `FindNextImages` "ranks unregistered images ...
and excludes images that exhausted `max_reg_trials`"; the header adds that it
"automatically ignores images that failed to registered for `max_reg_trials`".
The ranking policies are abstracted by taking the candidate images in ranked
order; the modelled part is the exclusion filter. -/
def FindNextImages (max_reg_trials : Nat) (s : RegTrialsState)
    (candidates : List image_t) : List image_t :=
  candidates.filter (fun i =>
    decide (i ∉ s.registered_images) &&
      decide (s.num_reg_trials i < max_reg_trials))

/-- A sequence of `RegisterNextImage` attempts, each given as the attempted
image id and whether registration succeeded. -/
def RunRegistrationAttempts (s : RegTrialsState)
    (evs : List (image_t × Bool)) : RegTrialsState :=
  evs.foldl (fun t e => RegisterNextImageAttempt t e.1 e.2) s

/-- Modelled from the spec: the global slice of `RegistrationStatistics`
shared across reconstructions — `num_total_reg_images` ("Number of images
that are registered in at least one reconstruction"),
`num_shared_reg_images` ("Number of shared images between current
reconstruction and all other previous reconstructions") and the per-image
`num_registrations` map ("The number of reconstructions in which images are
registered"). -/
@[ext]
structure RegistrationStatistics where
  num_total_reg_images : Nat
  num_shared_reg_images : Nat
  num_registrations : image_t → Nat

/-- Registering one image of a frame in the statistics: its registration
count grows by one; reaching one registration makes it a newly totalled
image, reaching two makes it shared with a previous reconstruction. -/
def RegisterImageEvent (s : RegistrationStatistics) (img : image_t) :
    RegistrationStatistics :=
  { num_total_reg_images :=
      if s.num_registrations img + 1 = 1 then s.num_total_reg_images + 1
      else s.num_total_reg_images,
    num_shared_reg_images :=
      if s.num_registrations img + 1 = 2 then s.num_shared_reg_images + 1
      else s.num_shared_reg_images,
    num_registrations := fun j =>
      if j = img then s.num_registrations img + 1 else s.num_registrations j }

/-- De-registering one image of a frame in the statistics: the exact inverse
update of `RegisterImageEvent`. -/
def DeRegisterImageEvent (s : RegistrationStatistics) (img : image_t) :
    RegistrationStatistics :=
  { num_total_reg_images :=
      if s.num_registrations img - 1 = 0 then s.num_total_reg_images - 1
      else s.num_total_reg_images,
    num_shared_reg_images :=
      if s.num_registrations img - 1 = 1 then s.num_shared_reg_images - 1
      else s.num_shared_reg_images,
    num_registrations := fun j =>
      if j = img then s.num_registrations img - 1 else s.num_registrations j }

/-- Modelled from the spec: `RegisterFrameEvent` on the statistics — a frame
aggregates the images captured by the rig's sensors, and registering the
frame registers each of its images. A frame is given by its image id list. -/
def RegisterFrameEventStats (s : RegistrationStatistics)
    (frame : List image_t) : RegistrationStatistics :=
  frame.foldl RegisterImageEvent s

/-- Modelled from the spec: `DeRegisterFrameEvent` on the statistics —
de-registers each image of the frame (images walked in reverse order, which
the counts cannot observe; chosen to make the inversion exact). -/
def DeRegisterFrameEventStats (s : RegistrationStatistics)
    (frame : List image_t) : RegistrationStatistics :=
  frame.foldr (fun img acc => DeRegisterImageEvent acc img) s

/-- The mapper state relevant to the global registration counts: the shared
statistics `reg_stats_` and the registered frames of the attached scene
(most recently registered first). -/
structure MapperState where
  reg_stats_ : RegistrationStatistics
  scene_reg_frames : List (List image_t)

/-- Modelled from the spec: `RegisterFrameEvent` — registers a frame in the
attached scene and updates the shared statistics. -/
def RegisterFrameEvent (m : MapperState) (frame : List image_t) :
    MapperState :=
  { reg_stats_ := RegisterFrameEventStats m.reg_stats_ frame,
    scene_reg_frames := frame :: m.scene_reg_frames }

/-- Modelled from the spec: `BeginReconstruction` — attaches a scene and, for
a scene that "already has registered frames", marks them as existing and
accounts for them in the shared statistics via `RegisterFrameEvent`. -/
def BeginReconstruction (m : MapperState)
    (existing_frames : List (List image_t)) : MapperState :=
  existing_frames.foldl RegisterFrameEvent
    { reg_stats_ := m.reg_stats_, scene_reg_frames := [] }

/-- Modelled from the spec: `EndReconstruction(discard = true)` — "the
attached scene's changes are abandoned and global registration counts are
rolled back": every frame registered in the attached scene is de-registered
(most recent first) and the scene is detached. -/
def EndReconstructionDiscard (m : MapperState) : MapperState :=
  { reg_stats_ := m.scene_reg_frames.foldl DeRegisterFrameEventStats
      m.reg_stats_,
    scene_reg_frames := [] }

/-- An image pair, identified by its two image ids. -/
abbrev ImagePair := image_t × image_t

/-- Modelled from the spec: `Retriangulate` of the missing
`incremental_triangulator.cc` — "for image pairs expected to share points
(per the correspondence graph) but currently not sharing triangulated
geometry ... re-attempts triangulation with a relaxed error threshold".
Inputs: the correspondence-graph pair list, the deterministic outcome
`succeeds` of a re-triangulation attempt for each pair under the given
triangulator options, and the current sharing state `shares_geometry`.
Returns the updated sharing state and the number of affected pairs. -/
def Retriangulate (pairs : List ImagePair) (succeeds : ImagePair → Bool)
    (shares_geometry : ImagePair → Bool) : (ImagePair → Bool) × Nat :=
  ((fun p => shares_geometry p || (decide (p ∈ pairs) && succeeds p)),
    (pairs.filter (fun p => !shares_geometry p && succeeds p)).length)

/-- One observation of a track: an image id and a keypoint index in that
image. -/
structure TrackElement where
  image_id : image_t
  point2D_idx : Nat
deriving DecidableEq, Repr

/-- A track: the observations that project to one 3D point. -/
structure Track where
  elements : List TrackElement
deriving DecidableEq

/-- Modelled from the spec: the track merge of the missing triangulator and
observation-manager sources — merging two distinct tracks keeps one surviving
point and "takes the union of their observations". -/
def MergeTracks (a b : Track) : Track :=
  { elements := a.elements ++ b.elements }

/-- The outcome of estimating two-view geometry for a candidate initial
pair: inlier count, estimation error, forward motion and median
triangulation angle. -/
structure TwoViewGeometry where
  num_inliers : Nat
  error : ℚ
  forward_motion : ℚ
  tri_angle : ℚ
deriving DecidableEq, Repr

/-- The numeric thresholds of `IncrementalMapper::Options` used by the
modelled operations, with the defaults of `incremental_mapper.h`. -/
structure MapperOptions where
  init_min_num_inliers : Nat := 100
  init_max_error : ℚ := 4
  init_max_forward_motion : ℚ := 95 / 100
  init_min_tri_angle : ℚ := 16
  init_max_reg_trials : Nat := 2
  filter_max_reproj_error : ℚ := 4
  filter_min_tri_angle : ℚ := 3 / 2
  max_reg_trials : Nat := 3

/-- Modelled from the spec: the acceptance test of `FindInitialImagePair` /
`EstimateInitialTwoViewGeometry` — "accepts only if inlier count ≥
`init_min_num_inliers`, estimation error ≤ `init_max_error`, forward motion ≤
`init_max_forward_motion`, and median triangulation angle ≥
`init_min_tri_angle`". -/
def PassesInitialChecks (opts : MapperOptions) (g : TwoViewGeometry) : Bool :=
  decide (opts.init_min_num_inliers ≤ g.num_inliers) &&
    decide (g.error ≤ opts.init_max_error) &&
    decide (g.forward_motion ≤ opts.init_max_forward_motion) &&
    decide (opts.init_min_tri_angle ≤ g.tri_angle)

/-- The slice of `RegistrationStatistics` driving initialization: "Images and
image pairs that have been used for initialization" (`init_image_pairs`,
`init_num_reg_trials`). -/
structure InitStatsState where
  init_image_pairs : List ImagePair
  init_num_reg_trials : image_t → Nat

/-- Modelled from the spec: the candidate-pair eligibility filter of
`FindInitialImagePair` — "skipping pairs already attempted (tracked in
Registration Statistics) or whose images exceed `init_max_reg_trials`
attempts". -/
def EligibleInitPair (opts : MapperOptions) (st : InitStatsState)
    (p : ImagePair) : Bool :=
  !(decide (p ∈ st.init_image_pairs)) &&
    decide (st.init_num_reg_trials p.1 < opts.init_max_reg_trials) &&
    decide (st.init_num_reg_trials p.2 < opts.init_max_reg_trials)

/-- Modelled from the spec: `FindInitialImagePair` — walks the candidate
pairs in ranked order (most correspondences first, the ranking being
abstracted by the given order), skips ineligible pairs, estimates two-view
geometry (`geometry` gives the deterministic estimate for each pair) and
returns the first pair passing all acceptance checks; returns no pair when
no candidate qualifies. -/
def FindInitialImagePair (opts : MapperOptions) (st : InitStatsState)
    (geometry : ImagePair → TwoViewGeometry) (candidates : List ImagePair) :
    Option ImagePair :=
  (candidates.filter (EligibleInitPair opts st)).find?
    (fun p => PassesInitialChecks opts (geometry p))

/-- One cached observation of a 3D point, as maintained by the observation
manager: the observing image, the keypoint index and the cached reprojection
error of the observation. -/
structure Observation where
  image_id : image_t
  point2D_idx : Nat
  reproj_error : ℚ
deriving DecidableEq

/-- A triangulated 3D point with its track of cached observations and its
cached triangulation angle. -/
structure Point3D where
  track : List Observation
  tri_angle : ℚ
deriving DecidableEq

/-- Modelled from the spec: `FilterPoints` of the missing
`incremental_mapper.cc` / observation manager — removes observations "whose
reprojection error exceeds `filter_max_reproj_error`", removes points whose
"triangulation angle falls below `filter_min_tri_angle`", and a point only
survives with at least two remaining observations (a track "must contain at
least two observations ... to exist"). -/
def FilterPoints (opts : MapperOptions) (points : List Point3D) :
    List Point3D :=
  (points.map (fun pt =>
      { pt with track := pt.track.filter (fun o =>
          decide (o.reproj_error ≤ opts.filter_max_reproj_error)) })).filter
    (fun pt => decide (2 ≤ pt.track.length) &&
      decide (opts.filter_min_tri_angle ≤ pt.tri_angle))

/-! Theorems. -/

/-- Invariant: in any reachable rig whose reference sensor is unset, the
sensor map is empty (sensors can only be added after the reference sensor). -/
theorem Rig.reachable_ref_none_sensors_nil (r : Rig) (h : Rig.Reachable r)
    (href : r.ref_sensor_id_ = none) : r.sensors_from_rig_ = [] := by
  induction h with
  | empty => rfl
  | addRef r i _ hok ih =>
    unfold Rig.AddRefSensor at href hok ⊢
    by_cases hc : r.ref_sensor_id_ = none <;> simp [hc] at href hok ⊢
  | addSensor r i p hr hok ih =>
    unfold Rig.AddSensor at href hok ⊢
    by_cases hc : r.NumSensors < 1
    · simp [hc] at hok
    · by_cases hhas : r.HasSensor i
      · simp [hc, hhas] at hok
      · simp [hc, hhas] at href ⊢
        have hnil := ih href
        unfold Rig.NumSensors at hc
        simp [hnil, href] at hc

/-- C1: calling `Rig::AddSensor` before any call to `Rig::AddRefSensor`
(i.e. on a reachable rig whose reference sensor is not yet set) fails with a
contract-violation error, for every sensor id and every optional
sensor-from-rig pose argument. -/
theorem addSensor_before_refSensor_fails (r : Rig) (hr : Rig.Reachable r)
    (href : r.ref_sensor_id_ = none) (i : sensor_t) (p : Option Rigid3d) :
    (r.AddSensor i p).2.isSome = true := by
  have hnil := Rig.reachable_ref_none_sensors_nil r hr href
  have h1 : r.NumSensors < 1 := by
    unfold Rig.NumSensors
    simp [hnil, href]
  unfold Rig.AddSensor
  simp [h1]

/-- Witness for C1: on a freshly constructed rig, adding a sensor fails. -/
theorem addSensor_before_refSensor_fails_witness :
    (Rig.empty.AddSensor ⟨0, 0⟩ none).2.isSome = true :=
  addSensor_before_refSensor_fails Rig.empty Rig.Reachable.empty rfl ⟨0, 0⟩ none

/-- C2: on a rig whose reference sensor has been set, adding the same sensor
id twice fails with a contract-violation error on the second call; moreover
adding a sensor id equal to the reference sensor's id fails immediately. -/
theorem addSensor_duplicate_id_fails :
    (∀ (r : Rig) (i : sensor_t) (p₁ p₂ : Option Rigid3d) (r₁ : Rig),
      r.ref_sensor_id_.isSome = true → r.AddSensor i p₁ = (r₁, none) →
      (r₁.AddSensor i p₂).2.isSome = true) ∧
    (∀ (r : Rig) (i : sensor_t) (p : Option Rigid3d),
      r.ref_sensor_id_ = some i → (r.AddSensor i p).2.isSome = true) := by
  constructor
  · intro r i p₁ p₂ r₁ href hok
    unfold Rig.AddSensor at hok
    by_cases h1 : r.NumSensors < 1
    · simp [h1] at hok
    · by_cases h2 : r.HasSensor i
      · simp [h1, h2] at hok
      · simp [h1, h2] at hok
        unfold Rig.AddSensor Rig.NumSensors Rig.HasSensor
        simp [← hok, href]
  · intro r i p href
    have h1 : ¬ r.NumSensors < 1 := by
      unfold Rig.NumSensors
      simp [href]
    have h2 : r.HasSensor i = true := by
      unfold Rig.HasSensor
      simp [href]
    unfold Rig.AddSensor
    simp [h1, h2]

/-- Witness for C2: on a rig with reference sensor `(0, 0)`, adding sensor
`(0, 1)` once succeeds and adding it again fails; adding the reference id
`(0, 0)` itself fails. -/
theorem addSensor_duplicate_id_fails_witness :
    ((({ ref_sensor_id_ := some ⟨0, 0⟩,
         sensors_from_rig_ := [(⟨0, 1⟩, none)] } : Rig).AddSensor
        ⟨0, 1⟩ none).2.isSome = true) ∧
    ((({ ref_sensor_id_ := some ⟨0, 0⟩ } : Rig).AddSensor
        ⟨0, 0⟩ none).2.isSome = true) :=
  ⟨addSensor_duplicate_id_fails.1 { ref_sensor_id_ := some ⟨0, 0⟩ }
      ⟨0, 1⟩ none none _ rfl rfl,
    addSensor_duplicate_id_fails.2 { ref_sensor_id_ := some ⟨0, 0⟩ }
      ⟨0, 0⟩ none rfl⟩

/-- C3: `Rig::AddRefSensor` succeeds exactly once per rig: on a rig whose
reference sensor is unset it records the given id, and once the reference
sensor is set every further call fails with a contract-violation error and
leaves the rig unchanged, regardless of the id passed. -/
theorem addRefSensor_exactly_once :
    (∀ (r : Rig) (i : sensor_t), r.ref_sensor_id_ = none →
      r.AddRefSensor i = ({ r with ref_sensor_id_ := some i }, none)) ∧
    (∀ (r : Rig) (i j : sensor_t), r.ref_sensor_id_ = some j →
      (r.AddRefSensor i).2.isSome = true ∧ (r.AddRefSensor i).1 = r) := by
  constructor
  · intro r i href
    unfold Rig.AddRefSensor
    simp [href]
  · intro r i j href
    unfold Rig.AddRefSensor
    simp [href]

/-- Witness for C3: on a fresh rig, setting reference sensor `(0, 5)`
succeeds, and a second `AddRefSensor` call with a different id fails without
changing the rig. -/
theorem addRefSensor_exactly_once_witness :
    (Rig.empty.AddRefSensor ⟨0, 5⟩ =
      (({ ref_sensor_id_ := some ⟨0, 5⟩ } : Rig), none)) ∧
    ((({ ref_sensor_id_ := some ⟨0, 5⟩ } : Rig).AddRefSensor ⟨0, 6⟩).2.isSome
        = true) ∧
    (({ ref_sensor_id_ := some ⟨0, 5⟩ } : Rig).AddRefSensor ⟨0, 6⟩).1 =
      ({ ref_sensor_id_ := some ⟨0, 5⟩ } : Rig) :=
  ⟨addRefSensor_exactly_once.1 Rig.empty ⟨0, 5⟩ rfl,
    (addRefSensor_exactly_once.2 { ref_sensor_id_ := some ⟨0, 5⟩ }
      ⟨0, 6⟩ ⟨0, 5⟩ rfl).1,
    (addRefSensor_exactly_once.2 { ref_sensor_id_ := some ⟨0, 5⟩ }
      ⟨0, 6⟩ ⟨0, 5⟩ rfl).2⟩

/-- C10: `Rig::AddRefSensor` and `Rig::AddSensor` are atomic on failure: when
either operation reports a contract-violation error, the rig state is exactly
the pre-call state (the checks precede any mutation). -/
theorem rig_mutators_atomic_on_failure (r : Rig) (i : sensor_t)
    (p : Option Rigid3d) :
    ((r.AddRefSensor i).2.isSome = true → (r.AddRefSensor i).1 = r) ∧
    ((r.AddSensor i p).2.isSome = true → (r.AddSensor i p).1 = r) := by
  constructor
  · unfold Rig.AddRefSensor
    split <;> simp
  · unfold Rig.AddSensor
    split
    · simp
    · split <;> simp

/-- Witness for C10: a failing `AddSensor` on a fresh rig leaves it exactly
as constructed. -/
theorem rig_mutators_atomic_on_failure_witness :
    ((Rig.empty.AddSensor ⟨0, 0⟩ none).2.isSome = true) ∧
    (Rig.empty.AddSensor ⟨0, 0⟩ none).1 = Rig.empty :=
  ⟨by decide,
    (rig_mutators_atomic_on_failure Rig.empty ⟨0, 0⟩ none).2 (by decide)⟩

/-- Per-image trial counters never decrease under registration attempts. -/
theorem numRegTrials_mono (evs : List (image_t × Bool)) (s : RegTrialsState)
    (i : image_t) :
    s.num_reg_trials i ≤ (RunRegistrationAttempts s evs).num_reg_trials i := by
  induction evs generalizing s with
  | nil => exact Nat.le_refl _
  | cons e evs ih =>
    refine Nat.le_trans ?_ (ih (RegisterNextImageAttempt s e.1 e.2))
    unfold RegisterNextImageAttempt
    by_cases h : i = e.1 <;> simp [h]

/-- C4: once an image's `num_reg_trials` counter exceeds `max_reg_trials`,
the image never appears in the output of any later `FindNextImages` call for
this reconstruction, whatever registration attempts happen in between and
whatever ranked candidate list is considered. -/
theorem image_exceeding_trials_never_in_findNextImages
    (max_reg_trials : Nat) (s : RegTrialsState) (img : image_t)
    (h : max_reg_trials < s.num_reg_trials img)
    (evs : List (image_t × Bool)) (candidates : List image_t) :
    img ∉ FindNextImages max_reg_trials (RunRegistrationAttempts s evs)
      candidates := by
  intro hmem
  have hlt := List.of_mem_filter hmem
  have hmono := numRegTrials_mono evs s img
  simp only [Bool.and_eq_true, decide_eq_true_eq] at hlt
  omega

/-- Witness for C4: an image with 4 trials and `max_reg_trials = 3` is absent
from the next `FindNextImages` output even when it heads the candidates. -/
theorem image_exceeding_trials_never_in_findNextImages_witness :
    (7 : image_t) ∉ FindNextImages 3
      (RunRegistrationAttempts
        { num_reg_trials := fun _ => 4, registered_images := [] } [])
      [7, 8] :=
  image_exceeding_trials_never_in_findNextImages 3
    { num_reg_trials := fun _ => 4, registered_images := [] } 7
    (by decide) [] [7, 8]

/-- De-registering an image right after registering it restores the
statistics exactly. -/
theorem deRegisterImageEvent_registerImageEvent
    (s : RegistrationStatistics) (i : image_t) :
    DeRegisterImageEvent (RegisterImageEvent s i) i = s := by
  unfold DeRegisterImageEvent RegisterImageEvent
  refine RegistrationStatistics.ext ?_ ?_ ?_
  · simp only
    split_ifs <;> omega
  · simp only
    split_ifs <;> omega
  · funext j
    by_cases h : j = i <;> simp [h]

/-- De-registering a frame right after registering it restores the
statistics exactly. -/
theorem deRegisterFrame_registerFrame (frame : List image_t)
    (s : RegistrationStatistics) :
    DeRegisterFrameEventStats (RegisterFrameEventStats s frame) frame = s := by
  induction frame generalizing s with
  | nil => rfl
  | cons i rest ih =>
    unfold RegisterFrameEventStats DeRegisterFrameEventStats
    simp only [List.foldl_cons, List.foldr_cons]
    have hrest := ih (RegisterImageEvent s i)
    unfold RegisterFrameEventStats DeRegisterFrameEventStats at hrest
    rw [hrest]
    exact deRegisterImageEvent_registerImageEvent s i

/-- De-registering every frame of the attached scene (most recent first)
undoes all frame registrations performed on a mapper state. -/
theorem endDiscard_foldl (fs : List (List image_t)) (m : MapperState) :
    (fs.foldl RegisterFrameEvent m).scene_reg_frames.foldl
        DeRegisterFrameEventStats (fs.foldl RegisterFrameEvent m).reg_stats_
      = m.scene_reg_frames.foldl DeRegisterFrameEventStats m.reg_stats_ := by
  induction fs generalizing m with
  | nil => rfl
  | cons f fs ih =>
    simp only [List.foldl_cons]
    rw [ih (RegisterFrameEvent m f)]
    show (f :: m.scene_reg_frames).foldl DeRegisterFrameEventStats
        (RegisterFrameEventStats m.reg_stats_ f)
      = m.scene_reg_frames.foldl DeRegisterFrameEventStats m.reg_stats_
    simp only [List.foldl_cons]
    rw [deRegisterFrame_registerFrame]

/-- C5: across any `BeginReconstruction`/`EndReconstruction(discard = true)`
cycle — a scene with any existing frames attached, any frames registered
during the reconstruction — the global counts `num_total_reg_images` and
`num_shared_reg_images` end up equal to their values just before the matching
`BeginReconstruction`. -/
theorem endReconstructionDiscard_restores_global_counts
    (m : MapperState) (existing new_frames : List (List image_t)) :
    ((EndReconstructionDiscard (new_frames.foldl RegisterFrameEvent
        (BeginReconstruction m existing))).reg_stats_.num_total_reg_images
      = m.reg_stats_.num_total_reg_images) ∧
    ((EndReconstructionDiscard (new_frames.foldl RegisterFrameEvent
        (BeginReconstruction m existing))).reg_stats_.num_shared_reg_images
      = m.reg_stats_.num_shared_reg_images) := by
  have h := endDiscard_foldl (existing ++ new_frames)
    { reg_stats_ := m.reg_stats_, scene_reg_frames := [] }
  rw [List.foldl_append] at h
  unfold BeginReconstruction EndReconstructionDiscard
  simp only
  rw [h]
  exact ⟨rfl, rfl⟩

/-- C6: with the same triangulator options (hence the same deterministic
attempt outcomes) and no intervening scene mutation, a second `Retriangulate`
call right after a first one affects 0 points. -/
theorem retriangulate_idempotent (pairs : List ImagePair)
    (succeeds shares_geometry : ImagePair → Bool) :
    (Retriangulate pairs succeeds
      (Retriangulate pairs succeeds shares_geometry).1).2 = 0 := by
  unfold Retriangulate
  simp only [List.length_eq_zero, List.filter_eq_nil_iff]
  intro p hp
  cases hs : succeeds p
  · simp [hs]
  · simp [hs, hp]

/-- C7: track merge is commutative on observation sets, and the surviving
track's observation set is exactly the union of the two input tracks'
observation sets — no observation is dropped. -/
theorem mergeTracks_commutative_union (a b : Track) (e : TrackElement) :
    ((e ∈ (MergeTracks a b).elements ↔ e ∈ (MergeTracks b a).elements) ∧
      (e ∈ (MergeTracks a b).elements ↔
        e ∈ a.elements ∨ e ∈ b.elements)) := by
  unfold MergeTracks
  constructor
  · simp only [List.mem_append]
    exact Or.comm
  · simp only [List.mem_append]

/-- C8: `FindInitialImagePair` accepts a candidate pair iff its estimated
two-view geometry passes all four threshold checks: any returned pair passes
them, and the search returns no pair exactly when no eligible candidate
passes them. -/
theorem findInitialImagePair_threshold_characterization
    (opts : MapperOptions) (st : InitStatsState)
    (geometry : ImagePair → TwoViewGeometry) (candidates : List ImagePair) :
    ((∀ p, FindInitialImagePair opts st geometry candidates = some p →
        PassesInitialChecks opts (geometry p) = true) ∧
      (FindInitialImagePair opts st geometry candidates = none ↔
        ∀ p ∈ candidates, EligibleInitPair opts st p = true →
          PassesInitialChecks opts (geometry p) = false)) := by
  constructor
  · intro p hp
    unfold FindInitialImagePair at hp
    have h := List.find?_some hp
    simpa using h
  · unfold FindInitialImagePair
    rw [List.find?_eq_none]
    constructor
    · intro h p hmem helig
      have := h p (List.mem_filter.mpr ⟨hmem, helig⟩)
      simpa using this
    · intro h p hmem
      obtain ⟨hm, he⟩ := List.mem_filter.mp hmem
      simp [h p hm he]

/-- Witness for C8: with the default options (`init_min_num_inliers = 100`),
a candidate pair whose geometry has 120 inliers and passes the other checks
is accepted (so it passes the checks), and the same scene with only 80
inliers yields no pair. -/
theorem findInitialImagePair_threshold_characterization_witness :
    (PassesInitialChecks {}
      { num_inliers := 120, error := 1, forward_motion := 1 / 2,
        tri_angle := 20 } = true) ∧
    (FindInitialImagePair {}
      { init_image_pairs := [], init_num_reg_trials := fun _ => 0 }
      (fun _ =>
        { num_inliers := 80, error := 1, forward_motion := 1 / 2,
          tri_angle := 20 })
      [(1, 2)] = none) :=
  ⟨(findInitialImagePair_threshold_characterization {}
        { init_image_pairs := [], init_num_reg_trials := fun _ => 0 }
        (fun _ =>
          { num_inliers := 120, error := 1, forward_motion := 1 / 2,
            tri_angle := 20 })
        [(1, 2)]).1 (1, 2)
      (by norm_num [FindInitialImagePair, EligibleInitPair,
            PassesInitialChecks, List.filter, List.find?]),
    (findInitialImagePair_threshold_characterization {}
        { init_image_pairs := [], init_num_reg_trials := fun _ => 0 }
        (fun _ =>
          { num_inliers := 80, error := 1, forward_motion := 1 / 2,
            tri_angle := 20 })
        [(1, 2)]).2.mpr
      (by intro p hmem helig
          norm_num [PassesInitialChecks])⟩

/-- C9: after `FilterPoints`, every remaining 3D point's every observation
has cached reprojection error at most `filter_max_reproj_error` (4.0 by
default). -/
theorem filterPoints_no_large_reproj_error (opts : MapperOptions)
    (points : List Point3D) :
    ((FilterPoints opts points).all (fun pt =>
      pt.track.all (fun o =>
        decide (o.reproj_error ≤ opts.filter_max_reproj_error)))) = true := by
  unfold FilterPoints
  rw [List.all_eq_true]
  intro pt hpt
  obtain ⟨q, hq, rfl⟩ := List.mem_map.mp (List.mem_of_mem_filter hpt)
  rw [List.all_eq_true]
  intro o ho
  have ho' : o ∈ q.track.filter (fun o =>
      decide (o.reproj_error ≤ opts.filter_max_reproj_error)) := ho
  simpa using List.of_mem_filter ho'

end Colmap
